import Mathlib

/-!
Shallow embedding of the ambio-systems firmware core: the button event
classifier (src/src/buttons.cpp), the incremental sensor renderer
(src/src/sensors.cpp) and the tick loop (src/src/main.cpp).

Display, LED, speaker and log calls are modelled as an effect alphabet
`Eff`; each embedded function returns the list of effects it issues, in
program order, together with its updated module-level state.  Machine
integers are modelled as `Int` (the only division sites use C truncating
division, `Int.tdiv`); the IMU's float readings are modelled as `ℚ` with
float-to-int conversion as truncation toward zero.
-/

/-- Color argument of a fill: either `M5.Display.getBaseColor()` (the erase /
background color) or a concrete RGB565 constant set via `setColor`. -/
inductive FillColor
  | base
  | rgb (c : Nat)
  deriving DecidableEq

/-- One observable effect issued by the core: display primitives, the LED,
the speaker, the log, the busy-poll site and the final commit. -/
inductive Eff
  | startWrite
  | endWrite
  | setClip (x y w h : Int)
  | clearClip
  | setCursor (x y : Int)
  | fill (x y w h : Int) (c : FillColor)
  | text (s : String)
  | drawText (s : String) (x y : Int)
  | poll
  | led (c : Nat)
  | tone (freq durMs : Nat)
  | logMsg (s : String)
  | commit
  deriving DecidableEq

/-- An effect that actually draws pixels (a draw call): `fillRect`,
cursor-relative text output, or `drawString`. -/
def isDraw : Eff → Bool
  | .fill _ _ _ _ _ => true
  | .text _ => true
  | .drawText _ _ _ => true
  | _ => false

/-- An effect that is a `fillRect` call. -/
def isFill : Eff → Bool
  | .fill _ _ _ _ _ => true
  | _ => false

/-- RGB565 color constants used by the firmware (M5GFX `TFT_*`). -/
def TFT_WHITE : Nat := 0xFFFF

def TFT_CYAN : Nat := 0x07FF

def TFT_RED : Nat := 0xF800

def TFT_YELLOW : Nat := 0xFFE0

def TFT_BLUE : Nat := 0x001F

def TFT_GREEN : Nat := 0x07E0

/-- Event taxonomy of the button classifier (include/types.h `ButtonState`). -/
inductive ButtonState
  | None
  | Hold
  | Clicked
  | Pressed
  | Released
  | DecideClickCount
  deriving DecidableEq

/-- State cascade of `process_button` (src/src/buttons.cpp lines 32-37):
`wasHold ? 1 : wasClicked ? 2 : wasPressed ? 3 : wasReleased ? 4 :
wasDecideClickCount ? 5 : 0`. -/
def button_state (wasHold wasClicked wasPressed wasReleased wasDecideClickCount : Bool) : Nat :=
  if wasHold then 1
  else if wasClicked then 2
  else if wasPressed then 3
  else if wasReleased then 4
  else if wasDecideClickCount then 5
  else 0

/-- The event ordinal (include/types.h) read back as a `ButtonState`. -/
def stateToEvent : Nat → ButtonState
  | 1 => ButtonState.Hold
  | 2 => ButtonState.Clicked
  | 3 => ButtonState.Pressed
  | 4 => ButtonState.Released
  | 5 => ButtonState.DecideClickCount
  | _ => ButtonState.None

/-- Spec-side classifier for claim C1, written from the spec's words: the
result is the first true flag in the fixed priority order
Hold > Clicked > Pressed > Released > DecideClickCount, and `None` when no
flag is true. -/
def priorityClassify (h c p r d : Bool) : ButtonState :=
  match [(h, ButtonState.Hold), (c, ButtonState.Clicked), (p, ButtonState.Pressed),
         (r, ButtonState.Released), (d, ButtonState.DecideClickCount)].find?
        (fun q => q.1) with
  | some q => q.2
  | none => ButtonState.None

/-- Raw per-button transition flags and the externally-owned click counter
(the `ButtonType&` argument of `process_button`). -/
structure BtnFlags where
  wasHold : Bool
  wasClicked : Bool
  wasPressed : Bool
  wasReleased : Bool
  wasDecideClickCount : Bool
  clickCount : Nat
  deriving DecidableEq

/-- include/types.h `BUTTON_STATE_COLORS`. -/
def BUTTON_STATE_COLORS : List Nat :=
  [TFT_WHITE, TFT_CYAN, TFT_RED, TFT_YELLOW, TFT_BLUE, TFT_GREEN]

/-- include/types.h `BUTTON_STATE_NAMES`. -/
def BUTTON_STATE_NAMES : List String :=
  ["none", "wasHold", "wasClicked", "wasPressed", "wasReleased", "wasDecideClickCount"]

/-- include/types.h `BUTTON_TONE_DURATION_MS`. -/
def BUTTON_TONE_DURATION_MS : Nat := 100

/-- src/src/buttons.cpp `process_button`: classify one button's flags and,
when the state is nonzero, emit LED, tone, log and (display not busy) the
click-counter cell.  `hh` is `display_get_height() / 8`. -/
def process_button (busy : Bool) (hh : Int) (f : BtnFlags) (name : String)
    (toneFreq : Nat) (row : Int) : Nat × List Eff :=
  let st := button_state f.wasHold f.wasClicked f.wasPressed f.wasReleased
              f.wasDecideClickCount
  if st ≠ 0 then
    (st,
      [Eff.led (BUTTON_STATE_COLORS.getD st 0),
       Eff.tone toneFreq BUTTON_TONE_DURATION_MS,
       Eff.logMsg (name ++ ":" ++ BUTTON_STATE_NAMES.getD st "" ++ "  count:"
                     ++ toString f.clickCount)]
        ++ (if !busy then
              [Eff.fill 0 (hh * row) hh (hh - 1)
                 (FillColor.rgb (BUTTON_STATE_COLORS.getD st 0)),
               Eff.setCursor 0 (hh * row),
               Eff.text (toString f.clickCount)]
            else []))
  else (0, [])

/-- Flags of the five configured buttons, in the order buttons_update
processes them. -/
structure BtnInputs where
  pwr : BtnFlags
  a : BtnFlags
  b : BtnFlags
  c : BtnFlags
  ext : BtnFlags

/-- src/src/buttons.cpp `buttons_update`: one batched-write scope around the
five `process_button` calls (rows 2..6, fixed per-channel tones). -/
def buttons_update (busy : Bool) (height : Int) (bi : BtnInputs) : List Eff :=
  let hh := Int.tdiv height 8
  [Eff.startWrite]
    ++ (process_button busy hh bi.pwr "BtnPWR" 784 2).2
    ++ (process_button busy hh bi.a "BtnA" 523 3).2
    ++ (process_button busy hh bi.b "BtnB" 587 4).2
    ++ (process_button busy hh bi.c "BtnC" 659 5).2
    ++ (process_button busy hh bi.ext "BtnEXT" 698 6).2
    ++ [Eff.endWrite]

/-- Zero-pad a decimal string to width `w` (the `%0Nd` printf formats). -/
def zpad (w : Nat) (s : String) : String :=
  String.mk (List.replicate (w - s.length) '0') ++ s

/-- Initial value of `prev_battery` (`INT_MAX`, include/types.h
`BATTERY_INVALID`). -/
def INT_MAX_C : Int := 2147483647

/-- src/src/sensors.cpp `update_battery` (lines 15-30): redraw the battery
cell only when the sampled level differs from `prev_battery`; the cell text
is `%03d` for a non-negative level and `"none"` otherwise.  Returns the new
`prev_battery` and the effects issued. -/
def update_battery (fontHeight prev battery : Int) : Int × List Eff :=
  if prev ≠ battery then
    (battery,
      [Eff.startWrite,
       Eff.setCursor 0 (fontHeight * 3),
       Eff.text "Bat:",
       Eff.text (if 0 ≤ battery then zpad 3 (toString battery.toNat) else "none"),
       Eff.endWrite])
  else (prev, [])

/-- RTC hardware reading (`m5::rtc_datetime_t`). -/
structure RtcDateTime where
  year : Nat
  month : Nat
  date : Nat
  weekDay : Nat
  hours : Nat
  minutes : Nat
  seconds : Nat
  deriving DecidableEq

/-- `struct tm` fields as produced by `localtime` on the system clock. -/
structure Tm where
  tm_year : Nat
  tm_mon : Nat
  tm_mday : Nat
  tm_wday : Nat
  tm_hour : Nat
  tm_min : Nat
  tm_sec : Nat
  deriving DecidableEq

/-- Weekday table of `update_rtc` (src/src/sensors.cpp lines 38-40). -/
def wd : List String := ["Sun", "Mon", "Tue", "Wed", "Thr", "Fri", "Sat", "ERR"]

/-- Date format `%04d/%02d/%02d(%s)` with the weekday index masked by 7. -/
def fmtDate (year month day wday : Nat) : String :=
  zpad 4 (toString year) ++ "/" ++ zpad 2 (toString month) ++ "/"
    ++ zpad 2 (toString day) ++ "(" ++ wd.getD (wday &&& 7) "ERR" ++ ")"

/-- Time format `%02d:%02d:%02d`. -/
def fmtTime (hh mm ss : Nat) : String :=
  zpad 2 (toString hh) ++ ":" ++ zpad 2 (toString mm) ++ ":" ++ zpad 2 (toString ss)

/-- src/src/sensors.cpp `update_rtc` (lines 33-86): return immediately when
the RTC is not enabled; otherwise draw date and time strings, from the RTC
reading when `getDateTime` succeeds and from the system clock (`localtime`
fields, with the `tm` offsets) when it fails. -/
def update_rtc (width fontHeight : Int) (rtcEnabled : Bool)
    (rtcRead : Option RtcDateTime) (sysTm : Tm) : List Eff :=
  if rtcEnabled = false then []
  else
    match rtcRead with
    | some dt =>
        [Eff.startWrite,
         Eff.drawText (fmtDate dt.year dt.month dt.date dt.weekDay)
           (Int.tdiv width 2) 0,
         Eff.drawText (fmtTime dt.hours dt.minutes dt.seconds)
           (Int.tdiv width 2) fontHeight,
         Eff.endWrite]
    | none =>
        [Eff.startWrite,
         Eff.drawText (fmtDate (sysTm.tm_year + 1900) (sysTm.tm_mon + 1)
             sysTm.tm_mday sysTm.tm_wday)
           (Int.tdiv width 2) 0,
         Eff.drawText (fmtTime sysTm.tm_hour sysTm.tm_min sysTm.tm_sec)
           (Int.tdiv width 2) fontHeight,
         Eff.endWrite]

/-- The sign-change test of `update_imu` (src/src/sensors.cpp line 136):
`(xpos[i] < 0) != (px < 0)`. -/
def signCrossed (x px : Int) : Bool :=
  decide (x < 0) != decide (px < 0)

/-- Per-channel bar colors of `update_imu` (src/src/sensors.cpp lines 107-110). -/
def channelColors : Fin 6 → FillColor :=
  ![FillColor.rgb TFT_RED, FillColor.rgb TFT_GREEN, FillColor.rgb TFT_BLUE,
    FillColor.rgb TFT_RED, FillColor.rgb TFT_GREEN, FillColor.rgb TFT_BLUE]

/-- Body of the per-channel loop of `update_imu` (src/src/sensors.cpp lines
128-155) for channel `i` with stored extent `px0` and new extent `x`:
skip when equal; on a sign change erase the full previous bar (when nonzero)
and treat the previous extent as 0; then fill the delta rectangle, in the
channel color when growing away from zero and in the base color when
shrinking.  Returns the new stored extent and the fills issued. -/
def update_channel (ox hh : Int) (i : Fin 6) (px0 x : Int) : Int × List Eff :=
  if x = px0 then (px0, [])
  else
    let eraseOps : List Eff :=
      if signCrossed x px0 && (px0 != 0) then
        [Eff.fill ox (hh * ((i.val : Int) + 2)) px0 hh FillColor.base]
      else []
    let px : Int := if signCrossed x px0 then 0 else px0
    let drawOps : List Eff :=
      if x ≠ px then
        [Eff.fill (x + ox) (hh * ((i.val : Int) + 2)) (px - x) hh
           (if decide (x > px) != decide (x < 0) then channelColors i
            else FillColor.base)]
      else []
    (x, eraseOps ++ drawOps)

/-- C float-to-int conversion of a rational: truncation toward zero. -/
def cTrunc (q : ℚ) : Int := Int.tdiv q.num (q.den : Int)

/-- One tick's raw sensor sample: battery level, RTC state, system clock and
the six IMU float channels. -/
structure Sample where
  battery : Int
  rtcEnabled : Bool
  rtcRead : Option RtcDateTime
  sysTm : Tm
  imuEnabled : Bool
  accel : Fin 3 → ℚ
  gyro : Fin 3 → ℚ

/-- Scaling of `update_imu` (src/src/sensors.cpp lines 113-116): accel
channels are multiplied by the gain 50, gyro channels divided by 2, both
then truncated to int. -/
def sampleXpos (s : Sample) : Fin 6 → Int :=
  ![cTrunc (s.accel 0 * 50), cTrunc (s.accel 1 * 50), cTrunc (s.accel 2 * 50),
    cTrunc (s.gyro 0 / 2), cTrunc (s.gyro 1 / 2), cTrunc (s.gyro 2 / 2)]

/-- src/src/sensors.cpp `update_imu` (lines 89-159): skip when the IMU is
not enabled; otherwise open a write scope, set the clip rectangle, poll the
busy flag, run the six channel updates, clear the clip and close the scope.
`hh = height / 8`, `ox = (width + hh) >> 1`. -/
def update_imu (width height : Int) (imuEnabled : Bool) (prev : Fin 6 → Int)
    (xs : Fin 6 → Int) : (Fin 6 → Int) × List Eff :=
  if imuEnabled = false then (prev, [])
  else
    let hh := Int.tdiv height 8
    let ox := (width + hh) / 2
    ((fun i => (update_channel ox hh i (prev i) (xs i)).1),
     [Eff.startWrite, Eff.setClip hh hh width height, Eff.poll]
       ++ (update_channel ox hh 0 (prev 0) (xs 0)).2
       ++ (update_channel ox hh 1 (prev 1) (xs 1)).2
       ++ (update_channel ox hh 2 (prev 2) (xs 2)).2
       ++ (update_channel ox hh 3 (prev 3) (xs 3)).2
       ++ (update_channel ox hh 4 (prev 4) (xs 4)).2
       ++ (update_channel ox hh 5 (prev 5) (xs 5)).2
       ++ [Eff.clearClip, Eff.endWrite])

/-- Busy-wait loop of `update_imu` (src/src/sensors.cpp lines 123-125):
`busy k` is the value `displayBusy()` returns on the k-th check.  The loop
exits at check `n` exactly when that check reads false and every earlier
check read true. -/
def busyWaitDone (busy : Nat → Bool) (n : Nat) : Bool :=
  !busy n && (List.range n).all busy

/-- Module-level state of src/src/sensors.cpp: `prev_battery` and
`prev_xpos`. -/
structure SensState where
  prev_battery : Int
  prev_xpos : Fin 6 → Int

/-- src/src/sensors.cpp `sensors_update` (lines 162-167): battery, RTC and
IMU sub-updates in order, then the single `M5.Display.display()` flush. -/
def sensors_update (width height fontHeight : Int) (st : SensState)
    (s : Sample) : SensState × List Eff :=
  let b := update_battery fontHeight st.prev_battery s.battery
  let r := update_rtc width fontHeight s.rtcEnabled s.rtcRead s.sysTm
  let m := update_imu width height s.imuEnabled st.prev_xpos (sampleXpos s)
  (⟨b.1, m.1⟩, b.2 ++ r ++ m.2 ++ [Eff.commit])

/-- src/src/main.cpp `loop` (lines 72-81): after `M5.update()` the tick runs
`buttons_update` then `sensors_update`. -/
def tick (width height fontHeight : Int) (busy : Bool) (bi : BtnInputs)
    (st : SensState) (s : Sample) : SensState × List Eff :=
  let r := sensors_update width height fontHeight st s
  (r.1, buttons_update busy height bi ++ r.2)

/-- Concrete RTC reading used by the counterexamples. -/
def dtC : RtcDateTime := ⟨2026, 10, 11, 6, 12, 30, 45⟩

/-- Concrete system-clock reading used by the counterexamples. -/
def tmC : Tm := ⟨126, 9, 11, 6, 12, 30, 45⟩

/-- Concrete sample used by the C5 counterexample: battery 77, RTC enabled
with a successful read, IMU enabled with all-zero readings. -/
def sampC : Sample := ⟨77, true, some dtC, tmC, true, ![0, 0, 0], ![0, 0, 0]⟩

/-- Sample for the C5 amended witness: as sampC but with the RTC disabled. -/
def sampF : Sample := ⟨77, false, some dtC, tmC, true, ![0, 0, 0], ![0, 0, 0]⟩

/-- Renderer state at power-on: prev_battery = INT_MAX, all extents 0. -/
def stInit : SensState := ⟨INT_MAX_C, ![0, 0, 0, 0, 0, 0]⟩

/-! Helper lemmas -/

/-- After a channel update the stored extent is always the new extent. -/
theorem update_channel_fst (ox hh : Int) (i : Fin 6) (px0 x : Int) :
    (update_channel ox hh i px0 x).1 = x := by
  rw [update_channel]
  split
  · next h => exact h.symm
  · rfl

/-- A channel whose extent did not change issues no effects. -/
theorem update_channel_self (ox hh : Int) (i : Fin 6) (x : Int) :
    update_channel ox hh i x x = (x, []) := by
  rw [update_channel]
  simp

/-! Claim theorems -/

/-- C1: the button classifier produces, per call, the highest-priority true
flag under the fixed order Hold > Clicked > Pressed > Released >
DecideClickCount > None; in particular hold and clicked both true yields
Hold. -/
theorem claim_C1 :
    (∀ h c p r d : Bool,
        stateToEvent (button_state h c p r d) = priorityClassify h c p r d) ∧
      (∀ p r d : Bool,
        stateToEvent (button_state true true p r d) = ButtonState.Hold) := by
  decide

/-- C2: on a strict sign change of a channel's extent the update issues
exactly two fills — first the erase of the full previous bar in the base
color, then the new bar computed from an effective previous extent of
zero — and stores the new extent. -/
theorem claim_C2 (ox hh : Int) (i : Fin 6) (px0 x : Int)
    (hsign : (0 < px0 ∧ x < 0) ∨ (px0 < 0 ∧ 0 < x)) :
    update_channel ox hh i px0 x =
      (x, [Eff.fill ox (hh * ((i.val : Int) + 2)) px0 hh FillColor.base,
           Eff.fill (x + ox) (hh * ((i.val : Int) + 2)) (0 - x) hh
             (channelColors i)]) := by
  have hx0 : x ≠ px0 := by rcases hsign with ⟨h1, h2⟩ | ⟨h1, h2⟩ <;> omega
  have hpx0 : (px0 != 0) = true := by
    rcases hsign with ⟨h1, h2⟩ | ⟨h1, h2⟩ <;> simp <;> omega
  have hcross : signCrossed x px0 = true := by
    rcases hsign with ⟨h1, h2⟩ | ⟨h1, h2⟩ <;>
      simp [signCrossed, h1, h2, not_lt.mpr h1.le, not_lt.mpr h2.le]
  have hxne : x ≠ (0 : Int) := by rcases hsign with ⟨h1, h2⟩ | ⟨h1, h2⟩ <;> omega
  have hcol : (decide (x > (0 : Int)) != decide (x < 0)) = true := by
    rcases hsign with ⟨h1, h2⟩ | ⟨h1, h2⟩ <;> simp <;> omega
  rw [update_channel, if_neg hx0]
  simp only [hcross, hpx0, Bool.and_self, if_pos trivial, if_true,
    Bool.true_and, if_pos hxne, hcol]
  simp [hxne, hcol]

/-- C3: with unchanged sign the update issues a single fill covering the
delta rectangle between the two extents, in the base (erase) color when the
bar shrinks toward zero and in the channel color when it grows; the
accel scenario 0.80g to 0.40g at gain 50 gives extents 40 and 20. -/
theorem claim_C3 (ox hh : Int) (i : Fin 6) (px0 x : Int)
    (hsign : decide (x < 0) = decide (px0 < 0)) (hne : x ≠ px0) :
    update_channel ox hh i px0 x =
      (x, [Eff.fill (x + ox) (hh * ((i.val : Int) + 2)) (px0 - x) hh
            (if px0.natAbs < x.natAbs then channelColors i
             else FillColor.base)]) ∧
      cTrunc ((0.8 : ℚ) * 50) = 40 ∧ cTrunc ((0.4 : ℚ) * 50) = 20 := by
  refine ⟨?_, ?_, ?_⟩
  · have hs : x < 0 ↔ px0 < 0 := decide_eq_decide.mp hsign
    have hcross : signCrossed x px0 = false := by
      simp [signCrossed, hsign]
    have hcol : ((decide (x > px0) != decide (x < 0)) = true) ↔
        px0.natAbs < x.natAbs := by
      simp only [bne_iff_ne, ne_eq, decide_eq_decide]
      omega
    rw [update_channel, if_neg hne]
    simp only [hcross, Bool.false_and, Bool.false_eq_true, if_false,
      if_neg (by simp : ¬((false : Bool) = true)), if_pos hne]
    rw [if_congr hcol rfl rfl]
    simp
  · have h : (0.8 : ℚ) * 50 = 40 := by norm_num
    rw [cTrunc, h]
    norm_num
  · have h : (0.4 : ℚ) * 50 = 20 := by norm_num
    rw [cTrunc, h]
    norm_num

/-- C7: after an IMU update the stored extent of every channel equals the
newly computed target extent. -/
theorem claim_C7 (width height : Int) (prev xs : Fin 6 → Int) (i : Fin 6) :
    (update_imu width height true prev xs).1 i = xs i := by
  rw [update_imu]
  simp [update_channel_fst]

/-- C10: from a stored extent of exactly 0 to a nonzero extent the update
issues exactly one fill (the new bar, channel color) and no erase; a
transition to a negative extent takes the sign-change branch since 0 is
classified as non-negative. -/
theorem claim_C10 (ox hh : Int) (i : Fin 6) (x : Int) (hx : x ≠ 0) :
    update_channel ox hh i 0 x =
      (x, [Eff.fill (x + ox) (hh * ((i.val : Int) + 2)) (0 - x) hh
            (channelColors i)]) ∧
      (x < 0 → signCrossed x 0 = true) := by
  constructor
  · rw [update_channel, if_neg hx]
    by_cases hneg : x < 0
    · have hcross : signCrossed x 0 = true := by simp [signCrossed, hneg]
      have hcol : (decide (x > (0 : Int)) != decide (x < 0)) = true := by
        simp; omega
      simp [hcross, hx, hcol]
    · have hpos : 0 < x := lt_of_le_of_ne (not_lt.mp hneg) (Ne.symm hx)
      have hcross : signCrossed x 0 = false := by simp [signCrossed, hneg]
      have hcol : (decide (x > (0 : Int)) != decide (x < 0)) = true := by
        simp; omega
      simp [hcross, hx, hcol]
  · intro hneg
    simp [signCrossed, hneg]

/-- Witness for C2 at the spec's example: previous extent +40, new extent
-20, with ox = 100 and hh = 16 on channel 0. -/
theorem claim_C2_witness :
    update_channel 100 16 0 40 (-20) =
      (-20, [Eff.fill 100 (16 * (((0 : Fin 6).val : Int) + 2)) 40 16
               FillColor.base,
             Eff.fill (-20 + 100) (16 * (((0 : Fin 6).val : Int) + 2))
               (0 - -20) 16 (channelColors 0)]) :=
  claim_C2 100 16 0 40 (-20) (Or.inl (by norm_num))

/-- Witness for C3 at the spec's scenario: extents 40 to 20 on channel 0
with ox = 0 and hh = 16. -/
theorem claim_C3_witness :
    (update_channel 0 16 0 40 20 =
      (20, [Eff.fill (20 + 0) (16 * (((0 : Fin 6).val : Int) + 2)) (40 - 20) 16
             (if (40 : Int).natAbs < (20 : Int).natAbs then channelColors 0
              else FillColor.base)]) ∧
      cTrunc ((0.8 : ℚ) * 50) = 40 ∧ cTrunc ((0.4 : ℚ) * 50) = 20) :=
  claim_C3 0 16 0 40 20 (by decide) (by decide)

/-- Witness for C10: previous extent 0, new extent -20 on channel 0 with
ox = 0 and hh = 16. -/
theorem claim_C10_witness :
    (update_channel 0 16 0 0 (-20) =
      (-20, [Eff.fill (-20 + 0) (16 * (((0 : Fin 6).val : Int) + 2))
              (0 - -20) 16 (channelColors 0)]) ∧
      ((-20 : Int) < 0 → signCrossed (-20) 0 = true)) :=
  claim_C10 0 16 0 (-20) (by decide)

/-- The battery sub-update always stores the sampled level (on a redraw it
is written, otherwise it already equals the stored value). -/
theorem update_battery_fst (fontHeight prev battery : Int) :
    (update_battery fontHeight prev battery).1 = battery := by
  rw [update_battery]
  split <;> simp_all

/-- C6: the battery cell redraws exactly when the sampled level differs
from the stored one, stores the sample, and prints the three-digit
zero-padded percentage (or "none" for a negative sentinel); the sample
sequence 77, 77, 63 from the initial INT_MAX draws "077", then nothing,
then "063". -/
theorem claim_C6 (fontHeight prev battery : Int) :
    (update_battery fontHeight prev battery).1 = battery ∧
    (update_battery fontHeight prev battery).2 =
      (if prev = battery then []
       else [Eff.startWrite, Eff.setCursor 0 (fontHeight * 3), Eff.text "Bat:",
             Eff.text (if 0 ≤ battery then zpad 3 (toString battery.toNat)
                       else "none"),
             Eff.endWrite]) ∧
    (update_battery fontHeight INT_MAX_C 77).2 =
      [Eff.startWrite, Eff.setCursor 0 (fontHeight * 3), Eff.text "Bat:",
       Eff.text "077", Eff.endWrite] ∧
    (update_battery fontHeight (update_battery fontHeight INT_MAX_C 77).1 77).2
      = [] ∧
    (update_battery fontHeight
        (update_battery fontHeight
          (update_battery fontHeight INT_MAX_C 77).1 77).1 63).2 =
      [Eff.startWrite, Eff.setCursor 0 (fontHeight * 3), Eff.text "Bat:",
       Eff.text "063", Eff.endWrite] := by
  have e77 : (if (0 : Int) ≤ 77 then zpad 3 (toString (77 : Int).toNat)
              else "none") = "077" := by decide
  have e63 : (if (0 : Int) ≤ 63 then zpad 3 (toString (63 : Int).toNat)
              else "none") = "063" := by decide
  refine ⟨update_battery_fst _ _ _, ?_, ?_, ?_, ?_⟩
  · rcases eq_or_ne prev battery with h | h <;> simp [update_battery, h]
  · rw [update_battery]
    norm_num [INT_MAX_C]
    decide
  · rw [update_battery_fst]
    simp [update_battery]
  · simp only [update_battery_fst]
    rw [update_battery]
    norm_num
    decide

/-- C4 counterexample: with the RTC not available (not enabled) the clock
sub-update returns immediately and issues no draw at all — it does not fall
back to the system clock, contrary to the claim that both strings are still
redrawn. -/
theorem claim_C4_counterexample :
    update_rtc 128 8 false (some dtC) tmC = [] := by
  rfl

/-- C4 amended: the system-time fallback runs when the RTC is enabled but
the date-time read fails; then both the date and the time string are drawn
every tick in the same formats as the RTC path.  When the RTC is not
enabled the clock sub-update is skipped entirely. -/
theorem claim_C4_amended (width fontHeight : Int) (sysTm : Tm) :
    update_rtc width fontHeight true none sysTm =
      [Eff.startWrite,
       Eff.drawText (fmtDate (sysTm.tm_year + 1900) (sysTm.tm_mon + 1)
           sysTm.tm_mday sysTm.tm_wday) (Int.tdiv width 2) 0,
       Eff.drawText (fmtTime sysTm.tm_hour sysTm.tm_min sysTm.tm_sec)
         (Int.tdiv width 2) fontHeight,
       Eff.endWrite] ∧
      update_rtc width fontHeight false none sysTm = [] := by
  constructor
  · rw [update_rtc]
    simp
  · rfl

/-- C9 counterexample: the busy-wait of update_imu is not bounded — for a
display whose busy flag reads true on every poll, there is no poll at which
the wait loop exits, so the claimed termination of the polling fails. -/
theorem claim_C9_counterexample :
    ¬ ∃ n, busyWaitDone (fun _ => true) n = true := by
  rintro ⟨n, hn⟩
  simp [busyWaitDone] at hn

/-- C9 amended: the renderer polls the busy flag before issuing any fill
(the poll site is the third effect of the IMU update, preceded only by the
write-scope open and the clip set, neither a fill), and the wait loop exits
exactly when the display eventually reports not busy — termination is
conditional on the display, with no a-priori bound; no error is surfaced
(the update always returns its effect list). -/
theorem claim_C9_amended :
    (∀ busy : Nat → Bool,
        (∃ n, busyWaitDone busy n = true) ↔ (∃ n, busy n = false)) ∧
      ∀ (width height : Int) (prev xs : Fin 6 → Int),
        (update_imu width height true prev xs).2.take 3 =
          [Eff.startWrite,
           Eff.setClip (Int.tdiv height 8) (Int.tdiv height 8) width height,
           Eff.poll] ∧
        ((update_imu width height true prev xs).2.take 3).countP
            (fun op => isFill op) = 0 := by
  constructor
  · intro busy
    constructor
    · rintro ⟨n, hn⟩
      simp [busyWaitDone] at hn
      exact ⟨n, hn.1⟩
    · intro h
      refine ⟨Nat.find h, ?_⟩
      have h1 := Nat.find_spec h
      rw [busyWaitDone, Bool.and_eq_true]
      constructor
      · simp [h1]
      · rw [List.all_eq_true]
        intro k hk
        have hk2 : k < Nat.find h := List.mem_range.mp hk
        exact eq_true_of_ne_false (Nat.find_min h hk2)
  · intro width height prev xs
    exact ⟨rfl, rfl⟩

theorem isDraw_startWrite : isDraw Eff.startWrite = false := rfl

theorem isDraw_endWrite : isDraw Eff.endWrite = false := rfl

theorem isDraw_setClip (x y w h : Int) : isDraw (Eff.setClip x y w h) = false := rfl

theorem isDraw_clearClip : isDraw Eff.clearClip = false := rfl

theorem isDraw_setCursor (x y : Int) : isDraw (Eff.setCursor x y) = false := rfl

theorem isDraw_poll : isDraw Eff.poll = false := rfl

theorem isDraw_commit : isDraw Eff.commit = false := rfl

theorem isDraw_fill (x y w h : Int) (c : FillColor) :
    isDraw (Eff.fill x y w h c) = true := rfl

theorem isDraw_text (s : String) : isDraw (Eff.text s) = true := rfl

theorem isDraw_drawText (s : String) (x y : Int) :
    isDraw (Eff.drawText s x y) = true := rfl

/-- The stored extents after an IMU update, covering both the enabled and
the disabled case. -/
theorem update_imu_fst (width height : Int) (en : Bool) (prev xs : Fin 6 → Int)
    (i : Fin 6) :
    (update_imu width height en prev xs).1 i = if en then xs i else prev i := by
  cases en
  · rfl
  · rw [update_imu]
    simp [update_channel_fst]

/-- Running the IMU update twice on the same target extents makes the
second run draw-free. -/
theorem update_imu_second_filter (width height : Int) (en : Bool)
    (prev xs : Fin 6 → Int) :
    ((update_imu width height en
        (update_imu width height en prev xs).1 xs).2).filter
      (fun op => isDraw op) = [] := by
  cases en
  · rfl
  · simp [update_imu, update_channel_fst, update_channel_self,
      isDraw_startWrite, isDraw_setClip, isDraw_poll, isDraw_clearClip,
      isDraw_endWrite]

/-- Feeding the same sample on two consecutive ticks: whatever the second
tick draws is exactly what the clock sub-update draws (battery and IMU are
fully diff-suppressed). -/
theorem second_tick_filter (width height fontHeight : Int) (st : SensState)
    (s : Sample) :
    ((sensors_update width height fontHeight
        (sensors_update width height fontHeight st s).1 s).2.filter
      (fun op => isDraw op)) =
      (update_rtc width fontHeight s.rtcEnabled s.rtcRead s.sysTm).filter
        (fun op => isDraw op) := by
  have hb : (sensors_update width height fontHeight st s).1.prev_battery
      = s.battery := update_battery_fst _ _ _
  have hm : ((update_imu width height s.imuEnabled
        (sensors_update width height fontHeight st s).1.prev_xpos
        (sampleXpos s)).2).filter (fun op => isDraw op) = [] :=
    update_imu_second_filter width height s.imuEnabled st.prev_xpos
      (sampleXpos s)
  conv_lhs => rw [sensors_update]
  rw [hb]
  simp only [List.filter_append, hm]
  simp [update_battery, isDraw_commit]

/-- C5 counterexample: feeding the identical sample (battery, clock, all
six IMU channels) on two consecutive ticks does not produce a draw-free
second tick — with the RTC path running, the second tick still issues the
two clock draw calls, because the clock sub-update has no diff check. -/
theorem claim_C5_counterexample :
    ((sensors_update 128 128 8
        (sensors_update 128 128 8 stInit sampC).1 sampC).2.filter
      (fun op => isDraw op)) =
      [Eff.drawText (fmtDate 2026 10 11 6) 64 0,
       Eff.drawText (fmtTime 12 30 45) 64 8] := by
  have h64 : Int.tdiv 128 2 = (64 : Int) := by decide
  rw [second_tick_filter]
  simp [update_rtc, sampC, dtC, tmC, h64, isDraw_startWrite, isDraw_endWrite,
    isDraw_drawText]

/-- C5 amended: when the clock sub-update does not run (RTC not enabled),
feeding the same sensor sample on two consecutive ticks produces a second
tick with zero draw calls — the battery and IMU diff checks suppress all
drawing; when the clock path runs it redraws unconditionally every tick. -/
theorem claim_C5_amended (width height fontHeight : Int) (st : SensState)
    (s : Sample) (hrtc : s.rtcEnabled = false) :
    ((sensors_update width height fontHeight
        (sensors_update width height fontHeight st s).1 s).2.filter
      (fun op => isDraw op)) = [] := by
  rw [second_tick_filter]
  simp [update_rtc, hrtc]

/-- Witness for C5 amended: concrete two-tick run with the RTC disabled. -/
theorem claim_C5_amended_witness :
    ((sensors_update 128 128 8
        (sensors_update 128 128 8 stInit sampF).1 sampF).2.filter
      (fun op => isDraw op)) = [] :=
  claim_C5_amended 128 128 8 stInit sampF rfl

/-- process_button never issues the display commit. -/
theorem commit_count_process_button (busy : Bool) (hh : Int) (f : BtnFlags)
    (name : String) (toneFreq : Nat) (row : Int) :
    (process_button busy hh f name toneFreq row).2.count Eff.commit = 0 := by
  rw [process_button]
  split_ifs <;> rfl

/-- buttons_update never issues the display commit. -/
theorem commit_count_buttons_update (busy : Bool) (height : Int)
    (bi : BtnInputs) :
    (buttons_update busy height bi).count Eff.commit = 0 := by
  rw [buttons_update]
  simp [List.count_append, commit_count_process_button, List.count_cons,
    List.count_nil]

/-- update_channel only issues fills, never the commit. -/
theorem commit_count_update_channel (ox hh : Int) (i : Fin 6) (px0 x : Int) :
    (update_channel ox hh i px0 x).2.count Eff.commit = 0 := by
  rw [update_channel]
  split
  · rfl
  · simp only [List.count_append]
    split_ifs <;> rfl

/-- update_battery never issues the commit. -/
theorem commit_count_update_battery (fontHeight prev battery : Int) :
    (update_battery fontHeight prev battery).2.count Eff.commit = 0 := by
  rw [update_battery]
  split_ifs <;> rfl

/-- update_rtc never issues the commit. -/
theorem commit_count_update_rtc (width fontHeight : Int) (rtcEnabled : Bool)
    (rtcRead : Option RtcDateTime) (sysTm : Tm) :
    (update_rtc width fontHeight rtcEnabled rtcRead sysTm).count Eff.commit
      = 0 := by
  rcases rtcRead with _ | dt <;> rw [update_rtc.eq_def] <;> split_ifs <;> rfl

/-- update_imu never issues the commit. -/
theorem commit_count_update_imu (width height : Int) (en : Bool)
    (prev xs : Fin 6 → Int) :
    (update_imu width height en prev xs).2.count Eff.commit = 0 := by
  rw [update_imu]
  split_ifs
  · rfl
  · simp [List.count_append, commit_count_update_channel, List.count_cons,
      List.count_nil]

/-- sensors_update issues the commit exactly once, as its last effect. -/
theorem commit_count_sensors_update (width height fontHeight : Int)
    (st : SensState) (s : Sample) :
    ((sensors_update width height fontHeight st s).2).count Eff.commit
      = 1 := by
  rw [sensors_update]
  simp [List.count_append, commit_count_update_battery,
    commit_count_update_rtc, commit_count_update_imu]

/-- C8: within one tick the button classifier's effects — bracketed by its
own batched-write scope — all precede the sensor renderer's effects, and
the renderer performs the single end-of-tick commit, which is the final
effect of the tick and occurs exactly once in it. -/
theorem claim_C8 (width height fontHeight : Int) (busy : Bool)
    (bi : BtnInputs) (st : SensState) (s : Sample) :
    (tick width height fontHeight busy bi st s).2 =
        buttons_update busy height bi ++
          (sensors_update width height fontHeight st s).2 ∧
      (buttons_update busy height bi).head? = some Eff.startWrite ∧
      (buttons_update busy height bi).getLast? = some Eff.endWrite ∧
      (buttons_update busy height bi).count Eff.commit = 0 ∧
      ((sensors_update width height fontHeight st s).2).count Eff.commit
        = 1 ∧
      ((tick width height fontHeight busy bi st s).2).getLast?
        = some Eff.commit ∧
      ((tick width height fontHeight busy bi st s).2).count Eff.commit
        = 1 := by
  refine ⟨rfl, rfl, ?_, commit_count_buttons_update busy height bi,
    commit_count_sensors_update width height fontHeight st s, ?_, ?_⟩
  · rw [buttons_update]
    exact List.getLast?_concat _
  · show (buttons_update busy height bi ++
        (sensors_update width height fontHeight st s).2).getLast?
        = some Eff.commit
    rw [sensors_update]
    rw [← List.append_assoc]
    exact List.getLast?_concat _
  · show (buttons_update busy height bi ++
        (sensors_update width height fontHeight st s).2).count Eff.commit
        = 1
    rw [List.count_append, commit_count_buttons_update,
      commit_count_sensors_update]
